import Mathlib

/-!
Shallow embedding of `src/script.js` (Weather-App-Pro), a browser weather
dashboard.  The DOM surface is modelled as an explicit `Display` record, the
browser's local storage as an `Option String`, and the process-wide mutable
`state` object as an `AppState` record.  Network responses are passed in as
explicit values (`FetchResult`, `SearchResult`), so every handler of the
script becomes a pure state-transition function that additionally reports the
list of outbound HTTP requests it issued.
-/

namespace WeatherApp

/-- The two temperature units of the unit switcher (`data-unit` is `'c'` or
`'f'` in the page). -/
inductive TempUnit where
  | c
  | f
deriving DecidableEq, Repr

/-- `location` sub-object of the current-conditions payload (the fields the
script reads). -/
structure Loc where
  name : String
  country : String
  localtime : String
deriving DecidableEq, Repr

/-- `current.condition` sub-object. -/
structure Condition where
  icon : String
  text : String
deriving DecidableEq, Repr

/-- `current` sub-object of the payload: the fields `updateUI` reads.
Numeric JSON fields are modelled as rationals. -/
structure Current where
  temp_c : ℚ
  temp_f : ℚ
  condition : Condition
  wind_kph : ℚ
  wind_dir : String
  humidity : ℚ
  pressure_mb : ℚ
  vis_km : ℚ
  is_day : Bool
deriving DecidableEq, Repr

/-- A full parsed current-conditions response (`state.weatherData`). -/
structure WeatherSnapshot where
  location : Loc
  current : Current
deriving DecidableEq, Repr

/-- One `{name, country}` entry of the search endpoint's response array. -/
structure Suggestion where
  name : String
  country : String
deriving DecidableEq, Repr

/-- The `state` object of the script. -/
structure AppState where
  currentUnit : TempUnit
  lastLocation : String
  weatherData : Option WeatherSnapshot
deriving DecidableEq, Repr

/-- One rendered `<div>` inside the suggestion container: its class list and
its text content. -/
structure SuggestionItem where
  classes : List String
  text : String
deriving DecidableEq, Repr

/-- The DOM fields the script writes: text contents of the named display
elements, the icon URL and alt, the active unit button, the suggestion
container (children and `show` class), the search input value and the
`night-mode` body class. -/
structure Display where
  temperature : String
  location : String
  time : String
  date : String
  conditionIcon : String
  conditionIconAlt : String
  conditionText : String
  windSpeed : String
  windDir : String
  humidity : String
  pressure : String
  visibility : String
  activeUnit : Option TempUnit
  suggestionsContent : List SuggestionItem
  suggestionsShown : Bool
  inputValue : String
  nightMode : Bool
deriving DecidableEq, Repr

/-- Whole mutable world of the page: script state, persisted storage value
under the key `lastLocation`, and the display. -/
structure AppModel where
  state : AppState
  storage : Option String
  display : Display
deriving DecidableEq, Repr

/-- An outbound HTTP GET issued by the script, identified by endpoint and the
raw `q` parameter (before URL-encoding). -/
inductive Request where
  | current (q : String)
  | search (q : String)
deriving DecidableEq, Repr

/-- Outcome of the current-conditions `fetch`, as seen by `fetchWeather`:
the transport threw (its error message), the response was non-ok (carrying
`errorData.error?.message`, absent when the payload has no such field), or ok
with a parsed snapshot. -/
inductive FetchResult where
  | transportError (msg : String)
  | httpError (emsg : Option String)
  | success (snap : WeatherSnapshot)
deriving DecidableEq, Repr

/-- Outcome of the suggestion `fetch` in `handleInput`: any thrown error
(transport failure or non-ok status) or a parsed suggestion array. -/
inductive SearchResult where
  | error
  | ok (suggs : List Suggestion)
deriving DecidableEq, Repr

/-- The clicked element inside the suggestion container, as inspected by
`handleSuggestionClick`: its class list and its `textContent`. -/
structure ClickTarget where
  classes : List String
  textContent : String
deriving DecidableEq, Repr

/-- Environment-dependent formatting the script delegates to the host:
locale time/date formatting (`toLocaleTimeString` / `toLocaleDateString`)
and JS number-to-string conversion used in template literals. -/
structure JsEnv where
  fmtTime : String → String
  fmtDate : String → String
  numStr : ℚ → String

/-- JS `a || b` on strings: `b` when `a` is falsy (the empty string). -/
def jsOr (a b : String) : String :=
  if a = "" then b else a

/-- JS `String.prototype.trim`: strips whitespace from both ends (written
over the character list so it evaluates by `decide`). -/
def jsTrim (s : String) : String :=
  String.mk
    (((s.data.dropWhile Char.isWhitespace).reverse.dropWhile Char.isWhitespace).reverse)

/-- JS `Math.round`: nearest integer, halves toward positive infinity,
i.e. `⌊x + 1/2⌋`. -/
def jsRound (q : ℚ) : ℤ :=
  Rat.floor (q + 1/2)

/-- ``current[`temp_${unit}`]``: the snapshot temperature field selected by a
unit. -/
def tempField (c : Current) : TempUnit → ℚ
  | .c => c.temp_c
  | .f => c.temp_f

/-- `updateTemperature(temp, unit)`: writes `Math.round(temp)` to the
temperature element and marks exactly the button of `unit` active. -/
def updateTemperature (temp : ℚ) (unit : TempUnit) (d : Display) : Display :=
  { d with temperature := toString (jsRound temp), activeUnit := some unit }

/-- `updateDateTime(localtime)`: locale-formatted time and date. -/
def updateDateTime (env : JsEnv) (localtime : String) (d : Display) : Display :=
  { d with time := env.fmtTime localtime, date := env.fmtDate localtime }

/-- `updateUI()`: renders `state.weatherData` onto the display.  The script
destructures `state.weatherData`; it is only ever called right after a
successful fetch stored a snapshot, so the `none` branch is inert here. -/
def updateUI (env : JsEnv) (st : AppState) (d : Display) : Display :=
  match st.weatherData with
  | none => d
  | some snap =>
    let loc := snap.location
    let cur := snap.current
    let d := { d with location := loc.name ++ ", " ++ loc.country }
    let d := updateDateTime env loc.localtime d
    let d := updateTemperature (tempField cur st.currentUnit) st.currentUnit d
    { d with
        conditionIcon := "https:" ++ cur.condition.icon
        conditionIconAlt := cur.condition.text
        conditionText := cur.condition.text
        windSpeed := env.numStr cur.wind_kph ++ " km/h"
        windDir := cur.wind_dir
        humidity := env.numStr cur.humidity ++ "%"
        pressure := env.numStr cur.pressure_mb ++ " hPa"
        visibility := env.numStr cur.vis_km ++ " km"
        nightMode := !cur.is_day }

/-- `showLoadingState()`. -/
def showLoadingState (d : Display) : Display :=
  { d with temperature := "...", conditionText := "Loading..." }

/-- `showErrorState(message)`: dashes the temperature and shows
`message || 'Data unavailable'`. -/
def showErrorState (message : String) (d : Display) : Display :=
  { d with temperature := "--", conditionText := jsOr message "Data unavailable" }

/-- `storeLocation(location)`: updates `state.lastLocation` and persists the
same string under the `lastLocation` storage key. -/
def storeLocation (location : String) (m : AppModel) : AppModel :=
  { m with
      state := { m.state with lastLocation := location }
      storage := some location }

/-- `fetchWeather(location)`: shows the loading state, issues the
current-conditions request, and on an ok response stores the snapshot,
renders it and persists the location; a thrown transport error, or a non-ok
response (whose `Error` message is `errorData.error?.message || 'Weather data
unavailable'`), is caught and rendered via `showErrorState`. -/
def fetchWeather (env : JsEnv) (location : String) (res : FetchResult)
    (m : AppModel) : AppModel × List Request :=
  let m := { m with display := showLoadingState m.display }
  match res with
  | .transportError msg =>
      ({ m with display := showErrorState msg m.display }, [.current location])
  | .httpError emsg =>
      let msg := jsOr (emsg.getD "") "Weather data unavailable"
      ({ m with display := showErrorState msg m.display }, [.current location])
  | .success snap =>
      let st := { m.state with weatherData := some snap }
      let m := { m with state := st, display := updateUI env st m.display }
      (storeLocation location m, [.current location])

/-- `switchUnit(unit)`: returns unchanged when the unit is already selected
or no snapshot exists; otherwise switches the unit and re-renders the
temperature from the existing snapshot.  Issues no request. -/
def switchUnit (unit : TempUnit) (m : AppModel) : AppModel × List Request :=
  if m.state.currentUnit = unit then (m, [])
  else
    match m.state.weatherData with
    | none => (m, [])
    | some snap =>
        let st := { m.state with currentUnit := unit }
        ({ m with
            state := st
            display := updateTemperature (tempField snap.current unit) unit m.display },
         [])

/-- `hideSuggestions()`: removes the `show` class (the children remain). -/
def hideSuggestions (d : Display) : Display :=
  { d with suggestionsShown := false }

/-- `clearSearch()`. -/
def clearSearch (d : Display) : Display :=
  hideSuggestions { d with inputValue := "" }

/-- The placeholder `<div class="suggestion-item">No results found</div>`. -/
def noResultsItem : SuggestionItem :=
  { classes := ["suggestion-item"], text := "No results found" }

/-- One rendered suggestion `<div class="suggestion-item">name, country</div>`. -/
def renderSuggestion (s : Suggestion) : SuggestionItem :=
  { classes := ["suggestion-item"], text := s.name ++ ", " ++ s.country }

/-- `showSuggestions(suggestions)`: fills the container with the first five
rendered entries, or the placeholder when the array is empty, and adds the
`show` class. -/
def showSuggestions (suggs : List Suggestion) (d : Display) : Display :=
  let content :=
    if suggs.isEmpty then [noResultsItem]
    else (suggs.take 5).map renderSuggestion
  { d with suggestionsContent := content, suggestionsShown := true }

/-- `handleInput()` (debounce-wrapped body): trims the input value; short
queries just hide the suggestion list; otherwise the search request is issued
and its outcome rendered, any error being swallowed into `hideSuggestions`. -/
def handleInput (inputValue : String) (res : SearchResult)
    (m : AppModel) : AppModel × List Request :=
  let query := jsTrim inputValue
  if query.length < 2 then
    ({ m with display := hideSuggestions m.display }, [])
  else
    match res with
    | .error => ({ m with display := hideSuggestions m.display }, [.search query])
    | .ok suggs => ({ m with display := showSuggestions suggs m.display }, [.search query])

/-- `handleSuggestionClick(e)`: when the clicked element carries the
`suggestion-item` class, fetches weather for its text content and clears the
search field. -/
def handleSuggestionClick (env : JsEnv) (target : ClickTarget)
    (res : FetchResult) (m : AppModel) : AppModel × List Request :=
  if target.classes.contains "suggestion-item" then
    let r := fetchWeather env target.textContent res m
    ({ r.1 with display := clearSearch r.1.display }, r.2)
  else (m, [])

/-- `handleSearch(e)`: fetches for the trimmed input when non-empty, then
clears the search field. -/
def handleSearch (env : JsEnv) (inputValue : String) (res : FetchResult)
    (m : AppModel) : AppModel × List Request :=
  let location := jsTrim inputValue
  if location = "" then (m, [])
  else
    let r := fetchWeather env location res m
    ({ r.1 with display := clearSearch r.1.display }, r.2)

/-- The initial `state` object: `localStorage.getItem('lastLocation') ||
'London'` (`getItem` yields `null` when absent). -/
def initialState (stored : Option String) : AppState :=
  { currentUnit := .c
    lastLocation := jsOr (stored.getD "") "London"
    weatherData := none }

/-- The display before any script write. -/
def initialDisplay : Display :=
  { temperature := "", location := "", time := "", date := ""
    conditionIcon := "", conditionIconAlt := "", conditionText := ""
    windSpeed := "", windDir := "", humidity := "", pressure := ""
    visibility := "", activeUnit := none, suggestionsContent := []
    suggestionsShown := false, inputValue := "", nightMode := false }

/-- `initApp()` on a fresh page with persisted value `stored`: builds the
initial state and fetches `state.lastLocation`. -/
def initApp (env : JsEnv) (stored : Option String) (res : FetchResult) :
    AppModel × List Request :=
  let m : AppModel :=
    { state := initialState stored, storage := stored, display := initialDisplay }
  fetchWeather env m.state.lastLocation res m

/-- `debounce(func, delay)` semantics over a timed trace: given invocation
events `(time, args)` in strictly increasing time order, the executions of
`func` that actually fire.  An invocation's timer is cancelled exactly when
the next invocation arrives before it fires; the single `timeout` slot means
each invocation replaces the previous pending timer. -/
def debounceExecs {α : Type} (delay : ℕ) : List (ℕ × α) → List (ℕ × α)
  | [] => []
  | (t, a) :: rest =>
    match rest with
    | [] => [(t + delay, a)]
    | (t', _) :: _ =>
        if t' < t + delay then debounceExecs delay rest
        else (t + delay, a) :: debounceExecs delay rest

/-- Decides that every gap between consecutive events is shorter than
`delay`. -/
def gapsShort (delay : ℕ) : List (ℕ × α) → Bool
  | [] => true
  | [_] => true
  | (t, _) :: (t', a') :: rest =>
      decide (t' < t + delay) && gapsShort delay ((t', a') :: rest)

/-- `true` on the two failure outcomes of the current-conditions fetch (the
response body was never successfully parsed into a snapshot). -/
def FetchResult.isFailure : FetchResult → Bool
  | .transportError _ => true
  | .httpError _ => true
  | .success _ => false

/-! ### Concrete test data (used by witnesses and counterexamples) -/

/-- A concrete environment for evaluating transitions on test data. -/
def idEnv : JsEnv :=
  { fmtTime := fun s => s, fmtDate := fun s => s, numStr := fun _ => "0" }

/-- A concrete successful payload. -/
def sampleSnap : WeatherSnapshot :=
  { location := { name := "Paris", country := "France", localtime := "2024-01-01 12:00" }
    current :=
      { temp_c := 21/2
        temp_f := 101/2
        condition := { icon := "//cdn.weatherapi.com/icons/day/113.png", text := "Sunny" }
        wind_kph := 10
        wind_dir := "N"
        humidity := 40
        pressure_mb := 1012
        vis_km := 10
        is_day := true } }

/-- A model before any successful fetch. -/
def sampleModel : AppModel :=
  { state := { currentUnit := .c, lastLocation := "London", weatherData := none }
    storage := some "London"
    display := initialDisplay }

/-- A model holding a snapshot (after a successful fetch for "Paris"). -/
def loadedModel : AppModel :=
  { state := { currentUnit := .c, lastLocation := "Paris", weatherData := some sampleSnap }
    storage := some "Paris"
    display := initialDisplay }

/-! ### Claims -/

/-- C1: for every successful current-conditions fetch, the temperature
written to the temperature display is `Math.round` of the snapshot field
matching the currently selected unit (`temp_c` for Celsius, `temp_f` for
Fahrenheit). -/
theorem fetch_success_rounded_temperature (env : JsEnv) (location : String)
    (snap : WeatherSnapshot) (m : AppModel) :
    (fetchWeather env location (.success snap) m).1.display.temperature
      = toString (jsRound (tempField snap.current m.state.currentUnit)) := by
  simp [fetchWeather, showLoadingState, updateUI, updateDateTime, updateTemperature,
    storeLocation]

/-- C7: for every rendered snapshot, the icon URL written to the display is
the snapshot's icon reference prefixed with the secure scheme, so the
resulting URL begins with `https:`. -/
theorem render_icon_secure_scheme (env : JsEnv) (st : AppState) (d : Display)
    (snap : WeatherSnapshot) (h : st.weatherData = some snap) :
    (updateUI env st d).conditionIcon = "https:" ++ snap.current.condition.icon
      ∧ ∃ rest, (updateUI env st d).conditionIcon = "https:" ++ rest := by
  refine ⟨?_, snap.current.condition.icon, ?_⟩ <;>
    simp [updateUI, h, updateDateTime, updateTemperature]

/-- Witness for C7 at concrete data. -/
theorem render_icon_secure_scheme_witness :
    (updateUI idEnv loadedModel.state initialDisplay).conditionIcon
      = "https:" ++ sampleSnap.current.condition.icon :=
  (render_icon_secure_scheme idEnv loadedModel.state initialDisplay sampleSnap rfl).1

/-- C10: when the persisted `lastLocation` is absent or the empty string,
the initial state's `lastLocation` is the default "London" and the startup
fetch targets "London". -/
theorem startup_default_london (env : JsEnv) (stored : Option String)
    (res : FetchResult) (h : stored = none ∨ stored = some "") :
    (initialState stored).lastLocation = "London"
      ∧ (initApp env stored res).2 = [Request.current "London"] := by
  rcases h with h | h <;> subst h <;>
    cases res <;> simp [initialState, initApp, fetchWeather, jsOr]

/-- Witness for C10 at concrete data. -/
theorem startup_default_london_witness :
    (initApp idEnv none (.success sampleSnap)).2 = [Request.current "London"] :=
  (startup_default_london idEnv none (.success sampleSnap) (Or.inl rfl)).2

/-- C8: a current-conditions fetch that fails before its body is parsed
(transport failure or non-ok status) leaves `state.weatherData`,
`state.lastLocation` and the persisted value unchanged; the display changes
only by the loading/error rendering. -/
theorem fetch_failure_preserves_state (env : JsEnv) (location : String)
    (res : FetchResult) (m : AppModel) (h : res.isFailure = true) :
    let r := fetchWeather env location res m
    r.1.state.weatherData = m.state.weatherData
      ∧ r.1.state.lastLocation = m.state.lastLocation
      ∧ r.1.storage = m.storage
      ∧ ∃ msg, r.1.display = showErrorState msg (showLoadingState m.display) := by
  cases res with
  | transportError msg => exact ⟨rfl, rfl, rfl, msg, rfl⟩
  | httpError emsg =>
      exact ⟨rfl, rfl, rfl, jsOr (emsg.getD "") "Weather data unavailable", rfl⟩
  | success snap => simp [FetchResult.isFailure] at h

/-- Witness for C8 at concrete data. -/
theorem fetch_failure_preserves_state_witness :
    (fetchWeather idEnv "Nowhere" (.httpError (some "Location not found"))
        sampleModel).1.storage = sampleModel.storage :=
  (fetch_failure_preserves_state idEnv "Nowhere" (.httpError (some "Location not found"))
    sampleModel rfl).2.2.1

/-- C2 counterexample: when the error payload carries `error.message` present
but equal to the empty string, the condition text is not that message (the
`||` fallback kicks in), contradicting "exactly the error.message field …
when present". -/
theorem http_error_message_counterexample :
    (fetchWeather idEnv "Paris" (.httpError (some "")) sampleModel).1.display.conditionText
      ≠ "" := by decide

/-- C2 (amended): on a non-ok response the error state is rendered with the
dashed temperature placeholder, and the condition text is exactly the
payload's `error.message` when present **and non-empty**, otherwise the
generic fallback "Weather data unavailable"; the error is absorbed at the
controller boundary (the transition is total). -/
theorem http_error_render (env : JsEnv) (location : String)
    (emsg : Option String) (m : AppModel) :
    let r := fetchWeather env location (.httpError emsg) m
    r.1.display.temperature = "--"
      ∧ r.1.display.conditionText =
          (match emsg with
           | some s => if s = "" then "Weather data unavailable" else s
           | none => "Weather data unavailable") := by
  cases emsg with
  | none => exact ⟨rfl, rfl⟩
  | some s =>
      refine ⟨rfl, ?_⟩
      by_cases hs : s = "" <;>
        simp [fetchWeather, showLoadingState, showErrorState, jsOr, hs]

/-- C3 counterexample: after a successful fetch for the empty query, the
persisted value is the empty string, but a fresh startup falls back to the
default and fetches "London", not the persisted query. -/
theorem store_location_startup_counterexample :
    (initApp idEnv (fetchWeather idEnv "" (.success sampleSnap) sampleModel).1.storage
        (.success sampleSnap)).2 ≠ [Request.current ""] := by decide

/-- C3 (amended): immediately after every successful fetch for query `q`,
the in-memory and persisted `lastLocation` both equal `q`; when `q` is
non-empty, a subsequent fresh startup targets `q` by default (an empty `q`
falls back to the default "London" at startup). -/
theorem store_location_consistent (env : JsEnv) (location : String)
    (snap : WeatherSnapshot) (m : AppModel) :
    let r := fetchWeather env location (.success snap) m
    r.1.state.lastLocation = location
      ∧ r.1.storage = some location
      ∧ (location ≠ "" →
          (initialState r.1.storage).lastLocation = location
            ∧ ∀ res, (initApp env r.1.storage res).2 = [Request.current location]) := by
  refine ⟨rfl, rfl, fun hne => ⟨?_, fun res => ?_⟩⟩
  · simp [fetchWeather, storeLocation, initialState, jsOr, hne]
  · cases res <;>
      simp [fetchWeather, storeLocation, initialState, initApp, jsOr, hne]

/-- Witness for C3 (amended) at concrete data. -/
theorem store_location_consistent_witness :
    (fetchWeather idEnv "Paris" (.success sampleSnap) sampleModel).1.storage
        = some "Paris"
      ∧ (initialState
            (fetchWeather idEnv "Paris" (.success sampleSnap) sampleModel).1.storage).lastLocation
          = "Paris" :=
  ⟨(store_location_consistent idEnv "Paris" sampleSnap sampleModel).2.1,
   ((store_location_consistent idEnv "Paris" sampleSnap sampleModel).2.2 (by decide)).1⟩

/-- C4: a unit-toggle click with a different unit and an existing snapshot
switches only the selected unit, re-renders the temperature and active
button from the existing snapshot, issues no request, and leaves the
storage, every other state field and every other display field unchanged. -/
theorem switch_unit_frame (unit : TempUnit) (snap : WeatherSnapshot)
    (m : AppModel) (h1 : m.state.currentUnit ≠ unit)
    (h2 : m.state.weatherData = some snap) :
    switchUnit unit m =
      ({ m with
          state := { m.state with currentUnit := unit }
          display := { m.display with
              temperature := toString (jsRound (tempField snap.current unit))
              activeUnit := some unit } },
       []) := by
  simp [switchUnit, h2, if_neg h1, updateTemperature]

/-- Witness for C4 at concrete data. -/
theorem switch_unit_frame_witness :
    (switchUnit TempUnit.f loadedModel).2 = []
      ∧ (switchUnit TempUnit.f loadedModel).1.display.temperature
          = toString (jsRound sampleSnap.current.temp_f) := by
  have h := switch_unit_frame TempUnit.f sampleSnap loadedModel (by decide) rfl
  rw [h]
  exact ⟨rfl, rfl⟩

/-- C6: the debounced search-input handler hides the suggestion list for
trimmed queries shorter than 2 without any request; otherwise it issues
exactly one search request for the trimmed query and either shows the first
five results in API order (or the "No results found" placeholder when none),
or, on a swallowed suggestion error, only hides the list. -/
theorem handle_input_behavior (inputValue : String) (res : SearchResult)
    (m : AppModel) :
    let r := handleInput inputValue res m
    ((jsTrim inputValue).length < 2 →
        r = ({ m with display := hideSuggestions m.display }, []))
      ∧ (¬ (jsTrim inputValue).length < 2 →
          r.2 = [Request.search (jsTrim inputValue)]
            ∧ (res = .error → r.1 = { m with display := hideSuggestions m.display })
            ∧ ∀ suggs, res = .ok suggs →
                r.1.state = m.state ∧ r.1.storage = m.storage
                  ∧ r.1.display.suggestionsShown = true
                  ∧ r.1.display.suggestionsContent =
                      (if suggs.isEmpty then [noResultsItem]
                       else (suggs.take 5).map renderSuggestion)) := by
  constructor
  · intro hshort
    simp [handleInput, if_pos hshort]
  · intro hlong
    cases res with
    | error =>
        refine ⟨?_, fun _ => ?_, fun suggs hok => by simp at hok⟩ <;>
          simp [handleInput, if_neg hlong]
    | ok suggs =>
        refine ⟨?_, fun habs => by simp at habs, fun s hok => ?_⟩
        · simp [handleInput, if_neg hlong]
        · cases hok
          refine ⟨?_, ?_, ?_, ?_⟩ <;>
            simp [handleInput, if_neg hlong, showSuggestions]

/-- Witness for C6 at concrete data: a one-letter query issues no request,
a two-letter query issues exactly the search request for it. -/
theorem handle_input_behavior_witness :
    (handleInput "a" .error sampleModel).2 = []
      ∧ (handleInput "Pa" (.ok [{ name := "Paris", country := "France" }])
          sampleModel).2 = [Request.search "Pa"] := by
  constructor
  · have h := (handle_input_behavior "a" .error sampleModel).1 (by decide)
    rw [h]
  · exact ((handle_input_behavior "Pa" (.ok [{ name := "Paris", country := "France" }])
      sampleModel).2 (by decide)).1

/-- C9: the empty-result placeholder div carries the same `suggestion-item`
class as real suggestions, so a click on it is handled as a suggestion click
and issues a current-conditions request with the literal query
"No results found". -/
theorem no_results_placeholder_clickable (env : JsEnv) (res : FetchResult)
    (m : AppModel) :
    (showSuggestions [] m.display).suggestionsContent = [noResultsItem]
      ∧ noResultsItem.classes.contains "suggestion-item" = true
      ∧ (handleSuggestionClick env
            { classes := noResultsItem.classes, textContent := noResultsItem.text }
            res m).2 = [Request.current "No results found"] := by
  refine ⟨by simp [showSuggestions], rfl, ?_⟩
  cases res <;> rfl

/-- C5: when every gap between consecutive invocations of a debounce-wrapped
action is shorter than the delay, exactly one execution of the action fires,
at `delay` after the last invocation, with the last invocation's
arguments. -/
theorem debounce_single_execution {α : Type} (delay : ℕ) (evs : List (ℕ × α))
    (h1 : evs ≠ []) (h2 : gapsShort delay evs = true) :
    debounceExecs delay evs
      = [((evs.getLast h1).1 + delay, (evs.getLast h1).2)] := by
  induction evs with
  | nil => exact absurd rfl h1
  | cons e rest ih =>
      obtain ⟨t, a⟩ := e
      cases rest with
      | nil => simp [debounceExecs, List.getLast]
      | cons e' rest' =>
          obtain ⟨t', a'⟩ := e'
          have hgap : t' < t + delay := by
            simp [gapsShort] at h2
            exact h2.1
          have htail : gapsShort delay ((t', a') :: rest') = true := by
            simp [gapsShort] at h2
            simpa [gapsShort] using h2.2
          have hne : ((t', a') :: rest' : List (ℕ × α)) ≠ [] := by simp
          rw [debounceExecs, if_pos hgap, ih hne htail]
          simp [List.getLast]

/-- Witness for C5 at concrete data (three invocations 0, 100, 250 with
delay 300: one execution at 550 with the last arguments). -/
theorem debounce_single_execution_witness :
    gapsShort 300 [(0, 1), (100, 2), (250, 3)] = true
      ∧ debounceExecs 300 [(0, 1), (100, 2), (250, 3)] = [(550, 3)] := by
  refine ⟨by decide, ?_⟩
  have h := debounce_single_execution 300 [(0, 1), (100, 2), (250, 3)]
    (by decide) (by decide)
  simpa [List.getLast] using h

end WeatherApp
